import Mathlib

/-!
Verification of the Black-Scholes option pricing model in
`Black_scholes_model/model.py` (class `OptionPricingModel`).

Modelling choices (shallow embedding):

* Python `float` values are modelled as rationals (`ℚ`), with exact
  arithmetic.  `round(x, 3)` is modelled as decimal rounding to three
  places with ties to even (`py_round3`), which is Python's rounding
  mode.
* The library functions `math.log`, `math.sqrt`, `math.exp` and
  `scipy.stats.norm.cdf` are external to the repository; they are
  modelled as an abstract structure `RealOps` of total functions on the
  arguments where the Python functions return normally.  Properties the
  real library functions enjoy (`sqrt 0 = 0`, `sqrt t > 0` for `t > 0`,
  `cdf` symmetric and valued in `[0,1]`) appear as explicit hypotheses.
* Python exceptions are modelled with `Except PyError`:
  `float / 0.0` raises `ZeroDivisionError`; `math.log` on a
  non-positive argument and `math.sqrt` on a negative argument raise
  `ValueError` ("math domain error").  Methods are embedded as
  `Except PyError` computations mirroring the source's evaluation
  order; since the methods only read `self`'s attributes and never
  assign them, the state-passing form `runOp` returns `self` unchanged.
-/

namespace BSM

/-- Python exceptions that the arithmetic in `model.py` can raise. -/
inductive PyError where
  | ZeroDivisionError : PyError
  | MathDomainError : PyError
deriving DecidableEq

instance exceptDecEq {ε α : Type} [DecidableEq ε] [DecidableEq α] :
    DecidableEq (Except ε α) := fun a b =>
  match a, b with
  | .ok x, .ok y => decidable_of_iff (x = y) (by simp)
  | .error e, .error f => decidable_of_iff (e = f) (by simp)
  | .ok _, .error _ => isFalse (by simp)
  | .error _, .ok _ => isFalse (by simp)

/-- The external mathematical primitives used by `model.py`
(`math.log`, `math.sqrt`, `math.exp`, `scipy.stats.norm.cdf`),
abstracted as total functions on the arguments where the Python calls
return normally. -/
structure RealOps where
  log : ℚ → ℚ
  sqrt : ℚ → ℚ
  exp : ℚ → ℚ
  normCdf : ℚ → ℚ

/-- The five fields stored by `OptionPricingModel.__init__`. -/
structure OptionPricingModel where
  spot : ℚ
  strike_price : ℚ
  rfr : ℚ
  volatility : ℚ
  time_to_expiry : ℚ
deriving DecidableEq

/-- Round-half-to-even to the nearest integer (the rounding mode of
Python's built-in `round`). -/
def rhe (x : ℚ) : ℤ :=
  if x - ⌊x⌋ < 1/2 then ⌊x⌋
  else if 1/2 < x - ⌊x⌋ then ⌊x⌋ + 1
  else if Even ⌊x⌋ then ⌊x⌋ else ⌊x⌋ + 1

/-- Python's `round(x, 3)`: decimal rounding to three places, ties to
even. -/
def py_round3 (x : ℚ) : ℚ := (rhe (x * 1000) : ℚ) / 1000

lemma rhe_intCast (n : ℤ) : rhe (n : ℚ) = n := by
  unfold rhe
  rw [Int.floor_intCast]
  norm_num

lemma rhe_floor_le (x : ℚ) : ⌊x⌋ ≤ rhe x := by
  unfold rhe
  split
  · exact le_rfl
  · split
    · omega
    · split <;> omega

lemma rhe_le_floor_add_one (x : ℚ) : rhe x ≤ ⌊x⌋ + 1 := by
  unfold rhe
  split
  · omega
  · split
    · omega
    · split <;> omega

lemma floor_neg_of_fract_ne_zero {x : ℚ} (h : x - ⌊x⌋ ≠ 0) :
    ⌊-x⌋ = -⌊x⌋ - 1 := by
  have h1 : (⌊x⌋ : ℚ) ≤ x := Int.floor_le x
  have h2 : x < ⌊x⌋ + 1 := Int.lt_floor_add_one x
  have h3 : (⌊x⌋ : ℚ) < x := lt_of_le_of_ne h1 fun he => h (by rw [he, sub_self])
  rw [Int.floor_eq_iff]
  constructor
  · push_cast
    linarith
  · push_cast
    linarith

lemma rhe_neg (x : ℚ) : rhe (-x) = -rhe x := by
  by_cases h0 : x - ⌊x⌋ = 0
  · have hx : x = (⌊x⌋ : ℚ) := by
      have := sub_eq_zero.mp h0
      linarith
    rw [hx, ← Int.cast_neg, rhe_intCast, rhe_intCast]
  · have hfl : ⌊-x⌋ = -⌊x⌋ - 1 := floor_neg_of_fract_ne_zero h0
    have hfr : -x - (⌊-x⌋ : ℚ) = 1 - (x - ⌊x⌋) := by
      rw [hfl]
      push_cast
      ring
    have hpos : 0 < x - ⌊x⌋ :=
      lt_of_le_of_ne (by linarith [Int.floor_le x]) (Ne.symm h0)
    unfold rhe
    rw [hfr, hfl]
    rcases lt_trichotomy (x - (⌊x⌋ : ℚ)) (1/2) with h | h | h
    · have c1 : ¬(1 - (x - (⌊x⌋ : ℚ)) < 1/2) := by linarith
      have c2 : (1 : ℚ)/2 < 1 - (x - ⌊x⌋) := by linarith
      rw [if_neg c1, if_pos c2, if_pos h]
      ring
    · have c1 : ¬(1 - (x - (⌊x⌋ : ℚ)) < 1/2) := by rw [h]; norm_num
      have c2 : ¬((1 : ℚ)/2 < 1 - (x - ⌊x⌋)) := by rw [h]; norm_num
      have c3 : ¬(x - (⌊x⌋ : ℚ) < 1/2) := by rw [h]; norm_num
      have c4 : ¬((1 : ℚ)/2 < x - ⌊x⌋) := by rw [h]; norm_num
      rw [if_neg c1, if_neg c2, if_neg c3, if_neg c4]
      by_cases he : Even ⌊x⌋
      · have hne : ¬ Even (-⌊x⌋ - 1) := by
          rcases he with ⟨k, hk⟩
          rintro ⟨j, hj⟩
          omega
        rw [if_neg hne, if_pos he]
        ring
      · have hev : Even (-⌊x⌋ - 1) := by
          rcases Int.even_or_odd ⌊x⌋ with he2 | ⟨k, hk⟩
          · exact absurd he2 he
          · exact ⟨-k - 1, by omega⟩
        rw [if_pos hev, if_neg he]
        ring
    · have c1 : 1 - (x - (⌊x⌋ : ℚ)) < 1/2 := by linarith
      have c3 : ¬(x - (⌊x⌋ : ℚ) < 1/2) := not_lt.mpr h.le
      rw [if_pos c1, if_neg c3, if_pos h]
      ring

lemma rhe_add_int_even (x : ℚ) (n : ℤ) (hn : Even n) :
    rhe (x + n) = rhe x + n := by
  unfold rhe
  rw [Int.floor_add_int]
  have hfr : x + (n : ℚ) - (⌊x⌋ + n : ℤ) = x - ⌊x⌋ := by
    push_cast
    ring
  rw [hfr]
  have hpar : Even (⌊x⌋ + n) ↔ Even ⌊x⌋ := by
    rcases hn with ⟨k, hk⟩
    constructor
    · rintro ⟨j, hj⟩
      exact ⟨j - k, by omega⟩
    · rintro ⟨j, hj⟩
      exact ⟨j + k, by omega⟩
  split
  · rfl
  · split
    · omega
    · rcases Classical.em (Even ⌊x⌋) with he | he
      · rw [if_pos (hpar.mpr he), if_pos he]
      · rw [if_neg (fun h => he (hpar.mp h)), if_neg he]
        omega

/-- Rounding commutes with reflection about `1/2`:
`round(1 - y, 3) = 1 - round(y, 3)` under ties-to-even. -/
lemma py_round3_one_sub (y : ℚ) : py_round3 (1 - y) = 1 - py_round3 y := by
  unfold py_round3
  have h : (1 - y) * 1000 = -(y * 1000) + ((1000 : ℤ) : ℚ) := by
    push_cast
    ring
  rw [h, rhe_add_int_even _ 1000 ⟨500, by norm_num⟩, rhe_neg]
  push_cast
  ring

lemma rhe_nonneg {x : ℚ} (h : 0 ≤ x) : 0 ≤ rhe x :=
  le_trans (Int.floor_nonneg.mpr h) (rhe_floor_le x)

lemma rhe_le_of_le {x : ℚ} {n : ℤ} (h : x ≤ n) : rhe x ≤ n := by
  have h1 : ⌊x⌋ ≤ n := by
    have := Int.floor_le_floor h
    rwa [Int.floor_intCast] at this
  rcases lt_or_eq_of_le h1 with h2 | h2
  · exact le_trans (rhe_le_floor_add_one x) (by omega)
  · have hx : x = (n : ℚ) := by
      have := Int.floor_le x
      rw [h2] at this
      linarith
    rw [hx, rhe_intCast]

/-- `round(x, 3)` is the identity on exact multiples of `1/1000`. -/
lemma py_round3_int_mul (x : ℚ) (n : ℤ) (h : x * 1000 = n) :
    py_round3 x = x := by
  unfold py_round3
  rw [h, rhe_intCast, ← h]
  field_simp

/-- `round(y, 3)` maps `[0, 1]` into `[0, 1]`. -/
lemma py_round3_mem_unit {y : ℚ} (h0 : 0 ≤ y) (h1 : y ≤ 1) :
    0 ≤ py_round3 y ∧ py_round3 y ≤ 1 := by
  unfold py_round3
  have ha : 0 ≤ rhe (y * 1000) := rhe_nonneg (by linarith)
  have hb : rhe (y * 1000) ≤ 1000 := rhe_le_of_le (by push_cast; linarith)
  constructor
  · positivity
  · rw [div_le_one (by norm_num)]
    exact_mod_cast hb

/-- `a / b` on Python floats: raises `ZeroDivisionError` when `b = 0`. -/
def pyDiv (a b : ℚ) : Except PyError ℚ :=
  if b = 0 then .error .ZeroDivisionError else .ok (a / b)

/-- `math.log`: raises `ValueError: math domain error` on a
non-positive argument. -/
def pyLog (ops : RealOps) (x : ℚ) : Except PyError ℚ :=
  if x ≤ 0 then .error .MathDomainError else .ok (ops.log x)

/-- `math.sqrt`: raises `ValueError: math domain error` on a negative
argument. -/
def pySqrt (ops : RealOps) (x : ℚ) : Except PyError ℚ :=
  if x < 0 then .error .MathDomainError else .ok (ops.sqrt x)

/-- `OptionPricingModel.__init__`: stores the five inputs as attributes.
It performs no validation and contains no operation that can raise, so
the embedded constructor always returns `.ok`. -/
def initE (spot strike_price rfr volatility time_to_expiry : ℚ) :
    Except PyError OptionPricingModel :=
  .ok ⟨spot, strike_price, rfr, volatility, time_to_expiry⟩

/-- `OptionPricingModel.d1`, mirroring the source's evaluation order:
`s / x` first (possible `ZeroDivisionError`), then `math.log`
(possible domain error), then `math.sqrt(t)` (possible domain error),
then the outer division (possible `ZeroDivisionError`), and finally
`round(·, 3)`. -/
def d1E (ops : RealOps) (m : OptionPricingModel) : Except PyError ℚ := do
  let q ← pyDiv m.spot m.strike_price
  let l ← pyLog ops q
  let sq ← pySqrt ops m.time_to_expiry
  let f ← pyDiv (l + (m.rfr + m.volatility ^ 2 / 2) * m.time_to_expiry)
    (m.volatility * sq)
  return py_round3 f

/-- `OptionPricingModel.d2`:
`round(self.d1() - self.volatility * math.sqrt(self.time_to_expiry), 3)`. -/
def d2E (ops : RealOps) (m : OptionPricingModel) : Except PyError ℚ := do
  let a ← d1E ops m
  let sq ← pySqrt ops m.time_to_expiry
  return py_round3 (a - m.volatility * sq)

/-- `OptionPricingModel.normsd1`: `round(norm.cdf(self.d1()), 3)`. -/
def normsd1E (ops : RealOps) (m : OptionPricingModel) : Except PyError ℚ := do
  let a ← d1E ops m
  return py_round3 (ops.normCdf a)

/-- `OptionPricingModel.normsd2`: `round(norm.cdf(self.d2()), 3)`. -/
def normsd2E (ops : RealOps) (m : OptionPricingModel) : Except PyError ℚ := do
  let b ← d2E ops m
  return py_round3 (ops.normCdf b)

/-- `OptionPricingModel.call_option_price`:
`spot * normsd1() - strike_price * exp(-rfr * t) * normsd2()`.
No rounding is applied to the result. -/
def call_option_priceE (ops : RealOps) (m : OptionPricingModel) :
    Except PyError ℚ := do
  let n1 ← normsd1E ops m
  let n2 ← normsd2E ops m
  return m.spot * n1 -
    m.strike_price * ops.exp (-m.rfr * m.time_to_expiry) * n2

/-- `OptionPricingModel.put_option_price`:
`nd1_neg = round(norm.cdf(-self.d1()), 3)`,
`nd2_neg = round(norm.cdf(-self.d2()), 3)`, then
`strike_price * exp(-rfr * t) * nd2_neg - spot * nd1_neg`. -/
def put_option_priceE (ops : RealOps) (m : OptionPricingModel) :
    Except PyError ℚ := do
  let a ← d1E ops m
  let b ← d2E ops m
  let nd1_neg := py_round3 (ops.normCdf (-a))
  let nd2_neg := py_round3 (ops.normCdf (-b))
  return m.strike_price * ops.exp (-m.rfr * m.time_to_expiry) * nd2_neg -
    m.spot * nd1_neg

/-- The algebraic variant of the put price that the source does NOT
use: deriving `N(-d1)` and `N(-d2)` as `1 - normsd1()` and
`1 - normsd2()` instead of fresh cumulative-probability calls.  Written
from the spec's words, for comparison with `put_option_priceE`. -/
def put_option_price_algebraicE (ops : RealOps) (m : OptionPricingModel) :
    Except PyError ℚ := do
  let n1 ← normsd1E ops m
  let n2 ← normsd2E ops m
  return m.strike_price * ops.exp (-m.rfr * m.time_to_expiry) * (1 - n2) -
    m.spot * (1 - n1)

/-- The six public operations of `OptionPricingModel`. -/
inductive ModelOp where
  | d1Op : ModelOp
  | d2Op : ModelOp
  | normsd1Op : ModelOp
  | normsd2Op : ModelOp
  | callOp : ModelOp
  | putOp : ModelOp
deriving DecidableEq

/-- State-passing form of a method call: the result together with the
state of `self` after the call.  The method bodies only read
attributes (no attribute assignment occurs anywhere in the class), so
the post-state is the unchanged `m`. -/
def runOp (op : ModelOp) (ops : RealOps) (m : OptionPricingModel) :
    Except PyError ℚ × OptionPricingModel :=
  match op with
  | .d1Op => (d1E ops m, m)
  | .d2Op => (d2E ops m, m)
  | .normsd1Op => (normsd1E ops m, m)
  | .normsd2Op => (normsd2E ops m, m)
  | .callOp => (call_option_priceE ops m, m)
  | .putOp => (put_option_priceE ops m, m)

/-- The full-precision value of the `formula` local in `d1` before
rounding. -/
def rawd1 (ops : RealOps) (m : OptionPricingModel) : ℚ :=
  (ops.log (m.spot / m.strike_price) +
      (m.rfr + m.volatility ^ 2 / 2) * m.time_to_expiry) /
    (m.volatility * ops.sqrt m.time_to_expiry)

/-- The rounded `d1` value returned on the success path. -/
def d1val (ops : RealOps) (m : OptionPricingModel) : ℚ :=
  py_round3 (rawd1 ops m)

/-- The rounded `d2` value returned on the success path. -/
def d2val (ops : RealOps) (m : OptionPricingModel) : ℚ :=
  py_round3 (d1val ops m - m.volatility * ops.sqrt m.time_to_expiry)

/-- Validity of the inputs (spec §3) together with positivity of the
modelled `math.sqrt` at `time_to_expiry`, which the real `math.sqrt`
satisfies whenever `time_to_expiry > 0`. -/
def ValidInputs (ops : RealOps) (m : OptionPricingModel) : Prop :=
  0 < m.spot ∧ 0 < m.strike_price ∧ 0 < m.volatility ∧
    0 < m.time_to_expiry ∧ 0 < ops.sqrt m.time_to_expiry

lemma ok_bind {α β : Type} (a : α) (f : α → Except PyError β) :
    (Except.ok a >>= f) = f a := rfl

lemma pure_eq_ok {α : Type} (a : α) : (pure a : Except PyError α) = .ok a := rfl

/-- Rounded success values of `normsd1`. -/
def normsd1val (ops : RealOps) (m : OptionPricingModel) : ℚ :=
  py_round3 (ops.normCdf (d1val ops m))

/-- Rounded success values of `normsd2`. -/
def normsd2val (ops : RealOps) (m : OptionPricingModel) : ℚ :=
  py_round3 (ops.normCdf (d2val ops m))

lemma d1E_eq_ok (ops : RealOps) (m : OptionPricingModel)
    (h : ValidInputs ops m) : d1E ops m = .ok (d1val ops m) := by
  obtain ⟨hs, hx, hv, ht, hsq⟩ := h
  have h1 : m.strike_price ≠ 0 := hx.ne'
  have h2 : ¬(m.spot / m.strike_price ≤ 0) := not_le.mpr (div_pos hs hx)
  have h3 : ¬(m.time_to_expiry < 0) := not_lt.mpr ht.le
  have h4 : m.volatility * ops.sqrt m.time_to_expiry ≠ 0 :=
    (mul_pos hv hsq).ne'
  simp only [d1E, pyDiv, pyLog, pySqrt, if_neg h1, if_neg h2, if_neg h3,
    if_neg h4, ok_bind, pure_eq_ok, d1val, rawd1]

lemma d2E_eq_ok (ops : RealOps) (m : OptionPricingModel)
    (h : ValidInputs ops m) : d2E ops m = .ok (d2val ops m) := by
  have h3 : ¬(m.time_to_expiry < 0) := not_lt.mpr h.2.2.2.1.le
  simp only [d2E, d1E_eq_ok ops m h, pySqrt, if_neg h3, ok_bind, pure_eq_ok, d2val]

lemma normsd1E_eq_ok (ops : RealOps) (m : OptionPricingModel)
    (h : ValidInputs ops m) : normsd1E ops m = .ok (normsd1val ops m) := by
  simp only [normsd1E, d1E_eq_ok ops m h, ok_bind, pure_eq_ok, normsd1val]

lemma normsd2E_eq_ok (ops : RealOps) (m : OptionPricingModel)
    (h : ValidInputs ops m) : normsd2E ops m = .ok (normsd2val ops m) := by
  simp only [normsd2E, d2E_eq_ok ops m h, ok_bind, pure_eq_ok, normsd2val]

lemma call_option_priceE_eq_ok (ops : RealOps) (m : OptionPricingModel)
    (h : ValidInputs ops m) :
    call_option_priceE ops m =
      .ok (m.spot * normsd1val ops m -
        m.strike_price * ops.exp (-m.rfr * m.time_to_expiry) *
          normsd2val ops m) := by
  simp only [call_option_priceE, normsd1E_eq_ok ops m h,
    normsd2E_eq_ok ops m h, ok_bind, pure_eq_ok]

lemma put_option_priceE_eq_ok (ops : RealOps) (m : OptionPricingModel)
    (h : ValidInputs ops m) :
    put_option_priceE ops m =
      .ok (m.strike_price * ops.exp (-m.rfr * m.time_to_expiry) *
          py_round3 (ops.normCdf (-d2val ops m)) -
        m.spot * py_round3 (ops.normCdf (-d1val ops m))) := by
  simp only [put_option_priceE, d1E_eq_ok ops m h, d2E_eq_ok ops m h, ok_bind,
    pure_eq_ok]

lemma put_option_price_algebraicE_eq_ok (ops : RealOps)
    (m : OptionPricingModel) (h : ValidInputs ops m) :
    put_option_price_algebraicE ops m =
      .ok (m.strike_price * ops.exp (-m.rfr * m.time_to_expiry) *
          (1 - normsd2val ops m) -
        m.spot * (1 - normsd1val ops m)) := by
  simp only [put_option_price_algebraicE, normsd1E_eq_ok ops m h,
    normsd2E_eq_ok ops m h, ok_bind, pure_eq_ok]

/-- Concrete instantiation of the external primitives used by the
witnesses: simple total rational functions satisfying the hypotheses
the theorems place on `RealOps` (`sqrt 0 = 0`, `sqrt` positive on
positives, `normCdf` symmetric and valued in `[0,1]`). -/
def testOps : RealOps :=
  ⟨fun x => x - 1, fun x => x, fun x => 1 + x, fun _ => 1/2⟩

/-- The example model of `Option_price.py`:
`OptionPricingModel(spot=140, strike_price=100, rfr=0.1,
volatility=0.3, time_to_expiry=.5)`. -/
def testModel : OptionPricingModel :=
  ⟨140, 100, 1/10, 3/10, 1/2⟩

end BSM

namespace BSM

/-- The cumulative-probability function used to separate the source's
put formula (fresh `norm.cdf` calls on negated arguments) from the
algebraic `1 - N(d)` variant: its values at `x` and `-x` do not sum to
a constant. -/
def distOps : RealOps :=
  ⟨fun _ => 0, fun x => x, fun _ => 1,
    fun x => if x ≤ -1 then 0 else if x < 0 then 1/10 else 3/10⟩

/-- A model on which `put_option_priceE` and
`put_option_price_algebraicE` disagree under `distOps`. -/
def distModel : OptionPricingModel := ⟨1, 1, 0, 1, 4⟩

lemma testValid : ValidInputs testOps testModel := by
  refine ⟨?_, ?_, ?_, ?_, ?_⟩ <;> norm_num [testOps, testModel]

/-- Claim C1: for valid inputs, `call_option_price()` returns exactly
`S * normsd1() - X * exp(-r*T) * normsd2()`, where `normsd1()` and
`normsd2()` are the 3-decimal-rounded cumulative normal probabilities
of the rounded `d1` and `d2`, and no rounding is applied to the final
call price. -/
theorem C1_call_price_formula (ops : RealOps) (m : OptionPricingModel)
    (h : ValidInputs ops m) :
    call_option_priceE ops m =
      .ok (m.spot * py_round3 (ops.normCdf (d1val ops m)) -
        m.strike_price * ops.exp (-m.rfr * m.time_to_expiry) *
          py_round3 (ops.normCdf (d2val ops m))) := by
  rw [call_option_priceE_eq_ok ops m h]
  rfl

/-- Claim C2: for valid inputs, `put_option_price()` returns
`X * exp(-r*T) * N(-d2) - S * N(-d1)` where `N(-d1)` and `N(-d2)` are
fresh cumulative-probability calls on the negated rounded `d1`/`d2`,
each rounded to 3 decimals; and the result is NOT the algebraic
`1 - N(d1)` / `1 - N(d2)` variant, which disagrees with it on a
concrete instance. -/
theorem C2_put_price_formula (ops : RealOps) (m : OptionPricingModel)
    (h : ValidInputs ops m) :
    put_option_priceE ops m =
      .ok (m.strike_price * ops.exp (-m.rfr * m.time_to_expiry) *
          py_round3 (ops.normCdf (-d2val ops m)) -
        m.spot * py_round3 (ops.normCdf (-d1val ops m))) ∧
    put_option_priceE distOps distModel = .ok (1/5) ∧
    put_option_price_algebraicE distOps distModel = .ok (3/10) := by
  have hd : ValidInputs distOps distModel := by
    refine ⟨?_, ?_, ?_, ?_, ?_⟩ <;> norm_num [distOps, distModel]
  have r1 : py_round3 (3/10) = 3/10 := py_round3_int_mul _ 300 (by norm_num)
  have r2 : py_round3 (1/10) = 1/10 := py_round3_int_mul _ 100 (by norm_num)
  have r3 : py_round3 0 = 0 := py_round3_int_mul _ 0 (by norm_num)
  have h1 : d1val distOps distModel = 1/2 := by
    have harg : rawd1 distOps distModel = 1/2 := by
      norm_num [rawd1, distOps, distModel]
    rw [d1val, harg]
    exact py_round3_int_mul _ 500 (by norm_num)
  have h2 : d2val distOps distModel = -7/2 := by
    rw [d2val, h1]
    have harg : (1 : ℚ)/2 -
        distModel.volatility * distOps.sqrt distModel.time_to_expiry =
          -7/2 := by
      norm_num [distOps, distModel]
    rw [harg]
    exact py_round3_int_mul _ (-3500) (by norm_num)
  refine ⟨put_option_priceE_eq_ok ops m h, ?_, ?_⟩
  · rw [put_option_priceE_eq_ok distOps distModel hd, h1, h2]
    norm_num [distOps, distModel, r1, r2]
  · rw [put_option_price_algebraicE_eq_ok distOps distModel hd]
    simp only [normsd1val, normsd2val, h1, h2]
    norm_num [distOps, distModel, r1, r3]

/-- Claim C3: for valid inputs, `d1()` returns
`[ln(S/X) + (r + v^2/2)*T] / [v*sqrt(T)]` rounded to 3 decimal places,
and downstream quantities (`d2`, `N(d1)`) consume the rounded value. -/
theorem C3_d1_formula_and_downstream (ops : RealOps)
    (m : OptionPricingModel) (h : ValidInputs ops m) :
    d1E ops m =
      .ok (py_round3 ((ops.log (m.spot / m.strike_price) +
        (m.rfr + m.volatility ^ 2 / 2) * m.time_to_expiry) /
        (m.volatility * ops.sqrt m.time_to_expiry))) ∧
    d2E ops m =
      .ok (py_round3 (py_round3 ((ops.log (m.spot / m.strike_price) +
        (m.rfr + m.volatility ^ 2 / 2) * m.time_to_expiry) /
        (m.volatility * ops.sqrt m.time_to_expiry)) -
        m.volatility * ops.sqrt m.time_to_expiry)) ∧
    normsd1E ops m =
      .ok (py_round3 (ops.normCdf
        (py_round3 ((ops.log (m.spot / m.strike_price) +
          (m.rfr + m.volatility ^ 2 / 2) * m.time_to_expiry) /
          (m.volatility * ops.sqrt m.time_to_expiry))))) := by
  exact ⟨d1E_eq_ok ops m h, d2E_eq_ok ops m h, normsd1E_eq_ok ops m h⟩

/-- Claim C4: for valid inputs, `d2()` equals
`round(d1() - v*sqrt(T), 3)` exactly, where `d1()` is the model's own
already-rounded `d1` value. -/
theorem C4_d2_from_rounded_d1 (ops : RealOps) (m : OptionPricingModel)
    (h : ValidInputs ops m) :
    ∀ a : ℚ, d1E ops m = .ok a →
      d2E ops m =
        .ok (py_round3 (a - m.volatility * ops.sqrt m.time_to_expiry)) := by
  intro a ha
  rw [d1E_eq_ok ops m h] at ha
  injection ha with ha
  rw [← ha]
  exact d2E_eq_ok ops m h

/-- Claim C7: for valid inputs, the values returned by `normsd1()` and
`normsd2()` lie in the closed interval `[0, 1]` (given that the
cumulative normal distribution is valued in `[0, 1]`). -/
theorem C7_norms_in_unit_interval (ops : RealOps) (m : OptionPricingModel)
    (h : ValidInputs ops m)
    (hcdf : ∀ y : ℚ, 0 ≤ ops.normCdf y ∧ ops.normCdf y ≤ 1) :
    (∃ a : ℚ, normsd1E ops m = .ok a ∧ 0 ≤ a ∧ a ≤ 1) ∧
    (∃ b : ℚ, normsd2E ops m = .ok b ∧ 0 ≤ b ∧ b ≤ 1) := by
  have h1 := py_round3_mem_unit (hcdf (d1val ops m)).1 (hcdf (d1val ops m)).2
  have h2 := py_round3_mem_unit (hcdf (d2val ops m)).1 (hcdf (d2val ops m)).2
  exact ⟨⟨normsd1val ops m, normsd1E_eq_ok ops m h, h1⟩,
    ⟨normsd2val ops m, normsd2E_eq_ok ops m h, h2⟩⟩

/-- Claim C8: the six operations are deterministic: re-running any
operation on the state left by a previous run of it returns the
identical result and an identical state. -/
theorem C8_determinism (op : ModelOp) (ops : RealOps)
    (m : OptionPricingModel) :
    (runOp op ops ((runOp op ops m).2)).1 = (runOp op ops m).1 ∧
    (runOp op ops ((runOp op ops m).2)).2 = (runOp op ops m).2 := by
  cases op <;> exact ⟨rfl, rfl⟩

/-- Claim C9: every operation leaves the five stored fields of the
model unchanged. -/
theorem C9_fields_unchanged (op : ModelOp) (ops : RealOps)
    (m : OptionPricingModel) :
    (runOp op ops m).2.spot = m.spot ∧
    (runOp op ops m).2.strike_price = m.strike_price ∧
    (runOp op ops m).2.rfr = m.rfr ∧
    (runOp op ops m).2.volatility = m.volatility ∧
    (runOp op ops m).2.time_to_expiry = m.time_to_expiry := by
  cases op <;> exact ⟨rfl, rfl, rfl, rfl, rfl⟩

end BSM

namespace BSM

lemma error_bind {α β : Type} (e : PyError) (f : α → Except PyError β) :
    (Except.error e >>= f : Except PyError β) = .error e := rfl

/-- Claim C6: for valid inputs (and a cumulative-probability function
satisfying the symmetry `N(-x) = 1 - N(x)`), the difference between
the call and put prices stays within `0.05` of `S - X * exp(-r*T)`:
bounded-drift put-call parity. -/
theorem C6_put_call_parity (ops : RealOps) (m : OptionPricingModel)
    (h : ValidInputs ops m)
    (hsym : ∀ y : ℚ, ops.normCdf (-y) = 1 - ops.normCdf y) :
    ∀ c p : ℚ, call_option_priceE ops m = .ok c →
      put_option_priceE ops m = .ok p →
      |c - p - (m.spot - m.strike_price *
        ops.exp (-m.rfr * m.time_to_expiry))| ≤ 1/20 := by
  intro c p hc hp
  rw [call_option_priceE_eq_ok ops m h] at hc
  rw [put_option_priceE_eq_ok ops m h] at hp
  injection hc with hc
  injection hp with hp
  rw [← hc, ← hp]
  have e1 : py_round3 (ops.normCdf (-d1val ops m)) = 1 - normsd1val ops m := by
    rw [hsym, py_round3_one_sub, normsd1val]
  have e2 : py_round3 (ops.normCdf (-d2val ops m)) = 1 - normsd2val ops m := by
    rw [hsym, py_round3_one_sub, normsd2val]
  rw [e1, e2]
  have key : m.spot * normsd1val ops m -
      m.strike_price * ops.exp (-m.rfr * m.time_to_expiry) *
        normsd2val ops m -
      (m.strike_price * ops.exp (-m.rfr * m.time_to_expiry) *
          (1 - normsd2val ops m) -
        m.spot * (1 - normsd1val ops m)) -
      (m.spot - m.strike_price * ops.exp (-m.rfr * m.time_to_expiry)) =
        0 := by
    ring
  rw [key, abs_zero]
  norm_num

/-- Claim C5 (counterexample): the source's constructor performs no
validation, so constructing with `volatility = 0`, `timeToExpiry = 0`
or `spot = -10` raises nothing: it returns the stored model normally
(the repository defines no `InputDomainError` at all). -/
theorem C5_counterexample :
    initE 100 100 (1/10) 0 (1/2) = .ok ⟨100, 100, 1/10, 0, 1/2⟩ ∧
    initE 100 100 (1/10) (3/10) 0 = .ok ⟨100, 100, 1/10, 3/10, 0⟩ ∧
    initE (-10) 100 (1/10) (3/10) (1/2) = .ok ⟨-10, 100, 1/10, 3/10, 1/2⟩ :=
  ⟨rfl, rfl, rfl⟩

/-- Claim C5 (amended): constructing with `volatility = 0`,
`timeToExpiry = 0` or `spot = -10` succeeds without raising; the
domain failure surfaces only when `d1()` is called: a
`ZeroDivisionError` for zero volatility or zero expiry, and a math
domain error (from `math.log`) for `spot = -10`. -/
theorem C5_amended_deferred_errors (ops : RealOps) (hsq0 : ops.sqrt 0 = 0) :
    (∀ s x r v t : ℚ, initE s x r v t = .ok ⟨s, x, r, v, t⟩) ∧
    d1E ops ⟨100, 100, 1/10, 0, 1/2⟩ = .error .ZeroDivisionError ∧
    d1E ops ⟨100, 100, 1/10, 3/10, 0⟩ = .error .ZeroDivisionError ∧
    d1E ops ⟨-10, 100, 1/10, 3/10, 1/2⟩ = .error .MathDomainError := by
  refine ⟨fun s x r v t => rfl, ?_, ?_, ?_⟩
  · norm_num [d1E, pyDiv, pyLog, pySqrt, ok_bind, error_bind, pure_eq_ok]
  · norm_num [d1E, pyDiv, pyLog, pySqrt, ok_bind, error_bind, pure_eq_ok,
      hsq0]
  · norm_num [d1E, pyDiv, pyLog, pySqrt, ok_bind, error_bind, pure_eq_ok]

/-- Claim C10 (counterexample): calling `d1()` with
`strikePrice = 0` (other inputs valid) fails with a
`ZeroDivisionError` raised by `spot / strike_price`, not with a math
domain error from `log` or `sqrt` as the claim states. -/
theorem C10_counterexample :
    d1E testOps ⟨100, 0, 1/10, 3/10, 1/2⟩ = .error .ZeroDivisionError ∧
    PyError.ZeroDivisionError ≠ PyError.MathDomainError := by
  constructor
  · norm_num [d1E, pyDiv, pyLog, pySqrt, ok_bind, error_bind, pure_eq_ok]
  · intro hcontra
    cases hcontra

/-- Claim C10 (amended): the constructor accepts any five inputs and
never raises; domain violations surface at the first derived call:
`d1()` raises `ZeroDivisionError` when `volatility = 0`,
`timeToExpiry = 0`, or `strikePrice = 0`, and a math domain error when
`spot <= 0` (strike positive), `strikePrice < 0` (spot positive), or
`timeToExpiry < 0`. -/
theorem C10_amended_first_call_errors (ops : RealOps)
    (hsq0 : ops.sqrt 0 = 0) :
    (∀ s x r v t : ℚ, initE s x r v t = .ok ⟨s, x, r, v, t⟩) ∧
    (∀ m : OptionPricingModel, 0 < m.spot → 0 < m.strike_price →
      0 ≤ m.time_to_expiry → m.volatility = 0 →
      d1E ops m = .error .ZeroDivisionError) ∧
    (∀ m : OptionPricingModel, 0 < m.spot → 0 < m.strike_price →
      m.time_to_expiry = 0 → d1E ops m = .error .ZeroDivisionError) ∧
    (∀ m : OptionPricingModel, m.spot ≤ 0 → 0 < m.strike_price →
      d1E ops m = .error .MathDomainError) ∧
    (∀ m : OptionPricingModel, 0 < m.spot → m.strike_price < 0 →
      d1E ops m = .error .MathDomainError) ∧
    (∀ m : OptionPricingModel, m.strike_price = 0 →
      d1E ops m = .error .ZeroDivisionError) ∧
    (∀ m : OptionPricingModel, 0 < m.spot → 0 < m.strike_price →
      m.time_to_expiry < 0 → d1E ops m = .error .MathDomainError) := by
  refine ⟨fun s x r v t => rfl, ?_, ?_, ?_, ?_, ?_, ?_⟩
  · intro m hs hx ht hv
    have h1 : m.strike_price ≠ 0 := hx.ne'
    have h2 : ¬(m.spot / m.strike_price ≤ 0) := not_le.mpr (div_pos hs hx)
    have h3 : ¬(m.time_to_expiry < 0) := not_lt.mpr ht
    have h4 : m.volatility * ops.sqrt m.time_to_expiry = 0 := by
      rw [hv, zero_mul]
    simp only [d1E, pyDiv, pyLog, pySqrt, if_neg h1, if_neg h2, if_neg h3,
      if_pos h4, ok_bind, error_bind]
  · intro m hs hx ht
    have h1 : m.strike_price ≠ 0 := hx.ne'
    have h2 : ¬(m.spot / m.strike_price ≤ 0) := not_le.mpr (div_pos hs hx)
    have h3 : ¬(m.time_to_expiry < 0) := by rw [ht]; norm_num
    have h4 : m.volatility * ops.sqrt m.time_to_expiry = 0 := by
      rw [ht, hsq0, mul_zero]
    simp only [d1E, pyDiv, pyLog, pySqrt, if_neg h1, if_neg h2, if_neg h3,
      if_pos h4, ok_bind, error_bind]
  · intro m hs hx
    have h1 : m.strike_price ≠ 0 := hx.ne'
    have h2 : m.spot / m.strike_price ≤ 0 :=
      div_nonpos_iff.mpr (Or.inr ⟨hs, hx.le⟩)
    simp only [d1E, pyDiv, pyLog, if_neg h1, if_pos h2, ok_bind, error_bind]
  · intro m hs hx
    have h1 : m.strike_price ≠ 0 := hx.ne
    have h2 : m.spot / m.strike_price ≤ 0 :=
      (div_neg_of_pos_of_neg hs hx).le
    simp only [d1E, pyDiv, pyLog, if_neg h1, if_pos h2, ok_bind, error_bind]
  · intro m hx
    simp only [d1E, pyDiv, if_pos hx, error_bind]
  · intro m hs hx ht
    have h1 : m.strike_price ≠ 0 := hx.ne'
    have h2 : ¬(m.spot / m.strike_price ≤ 0) := not_le.mpr (div_pos hs hx)
    simp only [d1E, pyDiv, pyLog, pySqrt, if_neg h1, if_neg h2, if_pos ht,
      ok_bind, error_bind]

end BSM

namespace BSM

lemma test_rawd1 : rawd1 testOps testModel = 63/20 := by
  norm_num [rawd1, testOps, testModel]

lemma test_d1val : d1val testOps testModel = 63/20 := by
  rw [d1val, test_rawd1]
  exact py_round3_int_mul _ 3150 (by norm_num)

lemma test_d2val : d2val testOps testModel = 3 := by
  rw [d2val, test_d1val]
  have harg : (63 : ℚ)/20 -
      testModel.volatility * testOps.sqrt testModel.time_to_expiry = 3 := by
    norm_num [testOps, testModel]
  rw [harg]
  exact py_round3_int_mul _ 3000 (by norm_num)

lemma py_round3_half : py_round3 (1/2) = 1/2 :=
  py_round3_int_mul _ 500 (by norm_num)

/-- Witness for C1 at the example inputs of `Option_price.py`. -/
theorem C1_witness : call_option_priceE testOps testModel = .ok (45/2) := by
  rw [C1_call_price_formula testOps testModel testValid, test_d1val,
    test_d2val]
  norm_num [testOps, testModel, py_round3_half]

/-- Witness for C2: the put formula at the example inputs, and the
disagreement between the fresh-call and algebraic variants. -/
theorem C2_witness :
    put_option_priceE testOps testModel = .ok (-45/2) ∧
    put_option_priceE distOps distModel = .ok (1/5) ∧
    put_option_price_algebraicE distOps distModel = .ok (3/10) := by
  have H := C2_put_price_formula testOps testModel testValid
  refine ⟨?_, H.2.1, H.2.2⟩
  rw [H.1, test_d1val, test_d2val]
  norm_num [testOps, testModel, py_round3_half]

/-- Witness for C3 at the example inputs. -/
theorem C3_witness :
    d1E testOps testModel = .ok (63/20) ∧
    d2E testOps testModel = .ok 3 ∧
    normsd1E testOps testModel = .ok (1/2) := by
  obtain ⟨a1, a2, a3⟩ :=
    C3_d1_formula_and_downstream testOps testModel testValid
  have hraw : (testOps.log (testModel.spot / testModel.strike_price) +
      (testModel.rfr + testModel.volatility ^ 2 / 2) *
        testModel.time_to_expiry) /
      (testModel.volatility * testOps.sqrt testModel.time_to_expiry) =
        63/20 := by
    norm_num [testOps, testModel]
  rw [hraw] at a1 a2 a3
  have h1 : py_round3 (63/20 : ℚ) = 63/20 :=
    py_round3_int_mul _ 3150 (by norm_num)
  rw [h1] at a2 a3
  refine ⟨by rw [a1]; exact congrArg Except.ok h1, ?_, ?_⟩
  · rw [a2]
    have harg : (63 : ℚ)/20 -
        testModel.volatility * testOps.sqrt testModel.time_to_expiry =
          3 := by
      norm_num [testOps, testModel]
    rw [harg]
    exact congrArg Except.ok (py_round3_int_mul _ 3000 (by norm_num))
  · rw [a3]
    have harg : testOps.normCdf (63/20) = 1/2 := rfl
    rw [harg]
    exact congrArg Except.ok py_round3_half

/-- Witness for C4 at the example inputs. -/
theorem C4_witness : d2E testOps testModel = .ok 3 := by
  have hd1 : d1E testOps testModel = .ok (63/20) := by
    rw [d1E_eq_ok testOps testModel testValid, test_d1val]
  rw [C4_d2_from_rounded_d1 testOps testModel testValid (63/20) hd1]
  have harg : (63 : ℚ)/20 -
      testModel.volatility * testOps.sqrt testModel.time_to_expiry = 3 := by
    norm_num [testOps, testModel]
  rw [harg]
  exact congrArg Except.ok (py_round3_int_mul _ 3000 (by norm_num))

/-- Witness for C5's amended theorem, instantiated at `testOps`. -/
theorem C5_witness :
    initE 140 100 (1/10) (3/10) (1/2) = .ok ⟨140, 100, 1/10, 3/10, 1/2⟩ ∧
    d1E testOps ⟨100, 100, 1/10, 0, 1/2⟩ = .error .ZeroDivisionError ∧
    d1E testOps ⟨100, 100, 1/10, 3/10, 0⟩ = .error .ZeroDivisionError ∧
    d1E testOps ⟨-10, 100, 1/10, 3/10, 1/2⟩ = .error .MathDomainError := by
  have H := C5_amended_deferred_errors testOps rfl
  exact ⟨H.1 140 100 (1/10) (3/10) (1/2), H.2.1, H.2.2.1, H.2.2.2⟩

/-- Witness for C6 at the example inputs: the parity defect is within
`1/20` there. -/
theorem C6_witness :
    |(45/2 : ℚ) - (-45/2) - (testModel.spot - testModel.strike_price *
      testOps.exp (-testModel.rfr * testModel.time_to_expiry))| ≤ 1/20 := by
  have hsym : ∀ y : ℚ, testOps.normCdf (-y) = 1 - testOps.normCdf y := by
    intro y
    norm_num [testOps]
  have hc : call_option_priceE testOps testModel = .ok (45/2) := by
    rw [call_option_priceE_eq_ok testOps testModel testValid]
    simp only [normsd1val, normsd2val, test_d1val, test_d2val]
    have h1 : testOps.normCdf (63/20) = 1/2 := rfl
    have h2 : testOps.normCdf 3 = 1/2 := rfl
    rw [h1, h2, py_round3_half]
    norm_num [testOps, testModel]
  have hp : put_option_priceE testOps testModel = .ok (-45/2) := by
    rw [put_option_priceE_eq_ok testOps testModel testValid, test_d1val,
      test_d2val]
    have h1 : testOps.normCdf (-(63/20)) = 1/2 := rfl
    have h2 : testOps.normCdf (-3) = 1/2 := rfl
    rw [h1, h2, py_round3_half]
    norm_num [testOps, testModel]
  exact C6_put_call_parity testOps testModel testValid hsym (45/2) (-45/2)
    hc hp

/-- Witness for C7 at the example inputs. -/
theorem C7_witness :
    (∃ a : ℚ, normsd1E testOps testModel = .ok a ∧ 0 ≤ a ∧ a ≤ 1) ∧
    (∃ b : ℚ, normsd2E testOps testModel = .ok b ∧ 0 ≤ b ∧ b ≤ 1) :=
  C7_norms_in_unit_interval testOps testModel testValid
    (fun y => by norm_num [testOps])

/-- Witness for C10's amended theorem, instantiated at `testOps` and
concrete models for each failure mode. -/
theorem C10_witness :
    initE 5 7 0 2 3 = .ok ⟨5, 7, 0, 2, 3⟩ ∧
    d1E testOps ⟨100, 100, 1/10, 0, 1/2⟩ = .error .ZeroDivisionError ∧
    d1E testOps ⟨100, 100, 1/10, 3/10, 0⟩ = .error .ZeroDivisionError ∧
    d1E testOps ⟨-10, 100, 1/10, 3/10, 1/2⟩ = .error .MathDomainError ∧
    d1E testOps ⟨100, -50, 1/10, 3/10, 1/2⟩ = .error .MathDomainError ∧
    d1E testOps ⟨100, 0, 1/10, 3/10, 1/2⟩ = .error .ZeroDivisionError ∧
    d1E testOps ⟨100, 100, 1/10, 3/10, -1⟩ = .error .MathDomainError := by
  have H := C10_amended_first_call_errors testOps rfl
  exact ⟨H.1 5 7 0 2 3,
    H.2.1 ⟨100, 100, 1/10, 0, 1/2⟩ (by norm_num) (by norm_num)
      (by norm_num) rfl,
    H.2.2.1 ⟨100, 100, 1/10, 3/10, 0⟩ (by norm_num) (by norm_num) rfl,
    H.2.2.2.1 ⟨-10, 100, 1/10, 3/10, 1/2⟩ (by norm_num) (by norm_num),
    H.2.2.2.2.1 ⟨100, -50, 1/10, 3/10, 1/2⟩ (by norm_num) (by norm_num),
    H.2.2.2.2.2.1 ⟨100, 0, 1/10, 3/10, 1/2⟩ rfl,
    H.2.2.2.2.2.2 ⟨100, 100, 1/10, 3/10, -1⟩ (by norm_num) (by norm_num)
      (by norm_num)⟩

end BSM
